import Mathlib

/-!
Verification of the CCX Marketplace API (`marketplace_api/`): a shallow
embedding of `data_models.py`, `database.py` and `main.py`, followed by
theorems about the purchase flow, the transaction digest, role-scoped
views and the availability invariant.

Conventions of the embedding:
* Python `int` becomes `Int`, SQLite `REAL` prices become `ℚ`, strings
  stay `String`; the JSON detail blobs are kept as their serialized text
  (the code never inspects their contents on any path a claim touches).
* The SQLite store is a `DBState` (a list of credit rows and a list of
  transaction rows).  External storage faults that the code's
  `try/except` guards against are made explicit as a `DBFault` oracle.
* A route handler returns `Except HTTPError α` (plus the post-call store
  where it mutates): `HTTPError.httpException` models a raised FastAPI
  `HTTPException`, `HTTPError.pythonError` models an uncaught Python
  exception, which FastAPI surfaces as HTTP 500.
-/

set_option maxRecDepth 100000

namespace Marketplace

/-! ## SHA-256 over byte lists (hashlib.sha256(...).hexdigest()) -/

/-- 2^32, the modulus of SHA-256 word arithmetic. -/
def M32 : Nat := 4294967296

/-- Right-rotation of a 32-bit word held in a `Nat` below `M32`. -/
def rotr32 (n x : Nat) : Nat := (x >>> n) ||| ((x <<< (32 - n)) % M32)

/-- SHA-256 message-schedule function sigma-0 (FIPS 180-4 §4.1.2). -/
def smallS0 (x : Nat) : Nat := (rotr32 7 x) ^^^ (rotr32 18 x) ^^^ (x >>> 3)

/-- SHA-256 message-schedule function sigma-1. -/
def smallS1 (x : Nat) : Nat := (rotr32 17 x) ^^^ (rotr32 19 x) ^^^ (x >>> 10)

/-- SHA-256 compression function Sigma-0. -/
def bigS0 (x : Nat) : Nat := (rotr32 2 x) ^^^ (rotr32 13 x) ^^^ (rotr32 22 x)

/-- SHA-256 compression function Sigma-1. -/
def bigS1 (x : Nat) : Nat := (rotr32 6 x) ^^^ (rotr32 11 x) ^^^ (rotr32 25 x)

/-- SHA-256 choice function: bits of `y` where `x` is set, of `z` elsewhere. -/
def sha256Ch (x y z : Nat) : Nat := (x &&& y) ^^^ ((x ^^^ 4294967295) &&& z)

/-- SHA-256 majority function. -/
def sha256Maj (x y z : Nat) : Nat := (x &&& y) ^^^ (x &&& z) ^^^ (y &&& z)

/-- The 64 SHA-256 round constants of FIPS 180-4 §4.2.2, in decimal. -/
def sha256K : List Nat :=
  [1116352408, 1899447441, 3049323471, 3921009573, 961987163,
   1508970993, 2453635748, 2870763221, 3624381080, 310598401,
   607225278, 1426881987, 1925078388, 2162078206, 2614888103,
   3248222580, 3835390401, 4022224774, 264347078, 604807628,
   770255983, 1249150122, 1555081692, 1996064986, 2554220882,
   2821834349, 2952996808, 3210313671, 3336571891, 3584528711,
   113926993, 338241895, 666307205, 773529912, 1294757372,
   1396182291, 1695183700, 1986661051, 2177026350, 2456956037,
   2730485921, 2820302411, 3259730800, 3345764771, 3516065817,
   3600352804, 4094571909, 275423344, 430227734, 506948616,
   659060556, 883997877, 958139571, 1322822218, 1537002063,
   1747873779, 1955562222, 2024104815, 2227730452, 2361852424,
   2428436474, 2756734187, 3204031479, 3329325298]

/-- The SHA-256 initial hash value (FIPS 180-4 §5.3.3), in decimal. -/
def sha256H0 : List Nat :=
  [1779033703, 3144134277, 1013904242, 2773480762,
   1359893119, 2600822924, 528734635, 1541459225]

/-- Merkle–Damgård padding: append `0x80`, zeros to 56 mod 64, then the
bit length as 8 big-endian bytes. -/
def sha256pad (msg : List Nat) : List Nat :=
  let bitLen := msg.length * 8
  let padZeros := (119 - msg.length % 64) % 64
  msg ++ [128] ++ List.replicate padZeros 0 ++
    (List.range 8).map (fun i => (bitLen >>> ((7 - i) * 8)) % 256)

/-- The 16 big-endian 32-bit words of one 64-byte block. -/
def sha256Words (block : List Nat) : List Nat :=
  (List.range 16).map (fun j =>
    block.getD (4 * j) 0 * 16777216 + block.getD (4 * j + 1) 0 * 65536 +
    block.getD (4 * j + 2) 0 * 256 + block.getD (4 * j + 3) 0)

/-- The 64-entry SHA-256 message schedule of one block. -/
def sha256Schedule (ws : List Nat) : List Nat :=
  (List.range 48).foldl (fun w i =>
    let t := i + 16
    w ++ [(smallS1 (w.getD (t - 2) 0) + w.getD (t - 7) 0 +
           smallS0 (w.getD (t - 15) 0) + w.getD (t - 16) 0) % M32]) ws

/-- One SHA-256 round on the eight working variables. -/
def sha256Round (s : List Nat) (kt wt : Nat) : List Nat :=
  match s with
  | [a, b, c, d, e, f, g, h] =>
    let t1 := (h + bigS1 e + sha256Ch e f g + kt + wt) % M32
    let t2 := (bigS0 a + sha256Maj a b c) % M32
    [(t1 + t2) % M32, a, b, c, (d + t1) % M32, e, f, g]
  | _ => s

/-- Compress one 64-byte block into the running hash state. -/
def sha256Block (h : List Nat) (block : List Nat) : List Nat :=
  let w := sha256Schedule (sha256Words block)
  let s := (List.range 64).foldl
    (fun s t => sha256Round s (sha256K.getD t 0) (w.getD t 0)) h
  (List.range 8).map (fun i => (h.getD i 0 + s.getD i 0) % M32)

/-- The SHA-256 digest of a byte list, as eight 32-bit words. -/
def sha256Digest (msg : List Nat) : List Nat :=
  let padded := sha256pad msg
  (List.range (padded.length / 64)).foldl
    (fun h i => sha256Block h ((padded.drop (64 * i)).take 64)) sha256H0

/-- The lowercase hexadecimal digit for a value below 16. -/
def hexDigit (n : Nat) : Char :=
  if n < 10 then Char.ofNat (48 + n) else Char.ofNat (87 + n)

/-- The eight lowercase hex digits of a 32-bit word, most significant first. -/
def word32hex (x : Nat) : List Char :=
  (List.range 8).map (fun i => hexDigit ((x >>> ((7 - i) * 4)) % 16))

/-- `hashlib.sha256(bytes).hexdigest()`: the 64-character lowercase hex
digest of a byte list. -/
def sha256hex (msg : List Nat) : String :=
  String.mk ((sha256Digest msg).map word32hex).flatten

/-- UTF-8 encoding of one Unicode scalar value (Python `str.encode()`
acts per character like this). -/
def utf8EncodeChar (c : Char) : List Nat :=
  let n := c.toNat
  if n < 128 then [n]
  else if n < 2048 then [192 + n / 64, 128 + n % 64]
  else if n < 65536 then [224 + n / 4096, 128 + (n / 64) % 64, 128 + n % 64]
  else [240 + n / 262144, 128 + (n / 4096) % 64, 128 + (n / 64) % 64, 128 + n % 64]

/-- Python `s.encode()`: the UTF-8 bytes of a string. -/
def utf8Encode (s : String) : List Nat := (s.data.map utf8EncodeChar).flatten

/-! ## Data model (`data_models.py`, `database.py` table schemas) -/

/-- `data_models.CarbonCredit` / one row of the `carbon_credits` table.
The `created_at`/`updated_at` timestamp columns are omitted: no route ever
reads them.  The JSON detail blobs are kept as their serialized text. -/
structure CarbonCredit where
  id : String
  project_name : String
  supplier : String
  credit_type : String
  vintage : Int
  quantity_available : Int
  price_per_ton : ℚ
  location : String
  verification_status : String
  methodology : String
  public_details : String
  private_details : Option String
  deriving DecidableEq, Repr

/-- `data_models.PublicCreditListing`: the public view of a credit — the
same fields as `CarbonCredit` minus `public_details` and
`private_details`. -/
structure PublicCreditListing where
  id : String
  project_name : String
  supplier : String
  credit_type : String
  vintage : Int
  quantity_available : Int
  price_per_ton : ℚ
  location : String
  verification_status : String
  methodology : String
  deriving DecidableEq, Repr

/-- `data_models.CreditTransaction` / one row of the `transactions` table. -/
structure CreditTransaction where
  id : String
  credit_id : String
  buyer_id : String
  quantity : Int
  price_per_ton : ℚ
  transaction_date : String
  status : String
  transaction_hash : String
  deriving DecidableEq, Repr

/-- `data_models.TransactionRequest`: the `POST /api/purchase` body. -/
structure TransactionRequest where
  credit_id : String
  quantity : Int
  deriving DecidableEq, Repr

/-- The SQLite store of `database.Database`: the `carbon_credits` and
`transactions` tables, as row lists in insertion order. -/
structure DBState where
  credits : List CarbonCredit
  transactions : List CreditTransaction
  deriving DecidableEq, Repr

/-- External-storage fault oracle: whether each of the two statements of
`Database.purchase_credit` raises for a reason outside the data itself
(disk error, lock, ...).  The code catches any such exception. -/
structure DBFault where
  insertFault : Bool
  updateFault : Bool
  deriving DecidableEq, Repr

/-! ## Database layer (`database.py`) -/

/-- The single-quote character, around which SQLite string literals are
written. -/
def sqlQuote : Char := Char.ofNat 39

/-- A one-character string holding a single quote. -/
def quoteS : String := String.mk [sqlQuote]

/-- Scan a SQLite single-quoted string literal, given the characters
after the opening quote: returns the literal's contents (with each
doubled quote collapsed to one, per SQLite escaping) and the characters
after the closing quote; `none` when the literal is unterminated. -/
def scanLiteral : List Char → Option (List Char × List Char)
  | [] => none
  | c :: cs =>
    if c = sqlQuote then
      match cs with
      | c2 :: cs2 =>
        if c2 = sqlQuote then
          (scanLiteral cs2).map (fun p => (sqlQuote :: p.1, p.2))
        else some ([], cs)
      | [] => some ([], [])
    else (scanLiteral cs).map (fun p => (c :: p.1, p.2))

/-- `Database.get_credit_by_id`: the source interpolates the caller's id
directly into the SQL text — `f"SELECT * FROM carbon_credits WHERE id =
'{credit_id}'"` — so SQLite lexes `'` ++ credit_id ++ `'` as a string
literal.  When that scan consumes everything, the query is an exact-match
lookup of the scanned contents (`fetchone`, i.e. first matching row);
when the literal is unterminated or characters remain after it, the
statement is not the intended single-literal query and is modelled as a
raised `sqlite3` error.  (For a few left-over shapes real SQLite would
instead execute the injected SQL; no claim below leans on those inputs.) -/
def get_credit_by_id (db : DBState) (credit_id : String) :
    Except String (Option CarbonCredit) :=
  match scanLiteral (credit_id.data ++ [sqlQuote]) with
  | none => .error "sqlite3.OperationalError: unrecognized token"
  | some (content, rest) =>
    if rest = [] then
      .ok (db.credits.find? (fun c => c.id == String.mk content))
    else .error "sqlite3.OperationalError: near token: syntax error"

/-- `Database.get_credits`: every row, blobs deserialized (kept opaque
here). -/
def get_credits (db : DBState) : List CarbonCredit := db.credits

/-- `Database.get_total_available_amount`: `SUM(quantity_available)`,
`0` for the empty table. -/
def get_total_available_amount (db : DBState) : Int :=
  (db.credits.map (fun c => c.quantity_available)).sum

/-- The INSERT statement of `Database.purchase_credit`: appends the row,
raising (`none`) on an external fault or a `transactions.id` PRIMARY KEY
violation. -/
def insertTransaction (db : DBState) (t : CreditTransaction) (fault : Bool) :
    Option DBState :=
  if fault || db.transactions.any (fun u => u.id == t.id) then none
  else some { db with transactions := db.transactions ++ [t] }

/-- The UPDATE statement of `Database.purchase_credit`: subtracts the
quantity from `quantity_available` of every row whose `id` equals the
transaction's `credit_id` (a parameterized equality, zero rows is not an
error), raising (`none`) only on an external fault. -/
def updateCreditQuantity (db : DBState) (credit_id : String) (quantity : Int)
    (fault : Bool) : Option DBState :=
  if fault then none
  else some { db with credits := db.credits.map (fun c =>
    if c.id == credit_id then
      { c with quantity_available := c.quantity_available - quantity }
    else c) }

/-- `Database.purchase_credit`: INSERT then UPDATE inside one SQLite
transaction; any exception rolls the connection back — the store is
exactly the pre-call store — and returns `False`, otherwise the commit
publishes both effects and returns `True`. -/
def purchase_credit (db : DBState) (t : CreditTransaction) (fault : DBFault) :
    Bool × DBState :=
  match insertTransaction db t fault.insertFault with
  | none => (false, db)
  | some db1 =>
    match updateCreditQuantity db1 t.credit_id t.quantity fault.updateFault with
    | none => (false, db)
    | some db2 => (true, db2)

/-- `Database.get_transactions`: `if buyer_id:` — `None` and the empty
string are both falsy, so filtering happens only for a non-empty
`buyer_id`. -/
def db_get_transactions (db : DBState) (buyer_id : Option String) :
    List CreditTransaction :=
  match buyer_id with
  | some b =>
    if b = "" then db.transactions
    else db.transactions.filter (fun t => t.buyer_id == b)
  | none => db.transactions

/-! ## API layer (`main.py`) -/

/-- The identity `verify_token` derives from a bearer token. -/
structure User where
  user_type : String
  user_id : String
  deriving DecidableEq, Repr

/-- A failed request: either a raised FastAPI `HTTPException` with its
status code and detail, or an uncaught Python exception, which FastAPI
surfaces as HTTP 500. -/
inductive HTTPError where
  | httpException (status : Nat) (detail : String)
  | pythonError (msg : String)
  deriving DecidableEq, Repr

/-- `main.BUYER_PERMISSIONS`. -/
def BUYER_PERMISSIONS : List String := ["buyer", "admin"]

/-- `main.verify_token`: the static three-token table; anything else
raises HTTP 401. -/
def verify_token (token : String) : Except HTTPError User :=
  if token = "demo_public_token" then .ok ⟨"public", "public_user"⟩
  else if token = "demo_buyer_token" then .ok ⟨"buyer", "buyer_001"⟩
  else if token = "demo_admin_token" then .ok ⟨"admin", "admin_001"⟩
  else .error (.httpException 401 "Invalid authentication credentials")

/-- The f-string of `main.create_transaction_hash`: credit_id, buyer_id,
quantity and transaction_date concatenated in that order with no
separators; Python `str` of an int is its decimal form, as is `toString`
on `Int`. -/
def digest_input (credit_id buyer_id : String) (quantity : Int)
    (transaction_date : String) : String :=
  credit_id ++ buyer_id ++ toString quantity ++ transaction_date

/-- `main.create_transaction_hash`: SHA-256 hex of the UTF-8 bytes of
the concatenated field string (`.encode()` then `.hexdigest()`). -/
def create_transaction_hash (credit_id buyer_id : String) (quantity : Int)
    (transaction_date : String) : String :=
  sha256hex (utf8Encode
    (digest_input credit_id buyer_id quantity transaction_date))

/-- The transaction dict built inside `main.purchase_credits`: a fresh
uuid4 `newId`, `datetime.now().isoformat()` as `now`, the price
snapshotted from the looked-up credit, status `completed`, and the hash
over the four digest fields. -/
def build_transaction (request : TransactionRequest) (user : User)
    (newId now : String) (price : ℚ) : CreditTransaction :=
  { id := newId
    credit_id := request.credit_id
    buyer_id := user.user_id
    quantity := request.quantity
    price_per_ton := price
    transaction_date := now
    status := "completed"
    transaction_hash :=
      create_transaction_hash request.credit_id user.user_id
        request.quantity now }

/-- The `POST /api/purchase` response body on success. -/
structure PurchaseResponse where
  transaction_id : String
  transaction_hash : String
  total_cost : ℚ
  status : String
  deriving DecidableEq, Repr

/-- `main.purchase_credits` (`POST /api/purchase`), for an authenticated
`user`: 403 unless the role is in `BUYER_PERMISSIONS`; the credit lookup
(an uncaught `sqlite3` error becomes a 500-level `pythonError`); 404 when
absent; 400 when `quantity_available < quantity`; then
`Database.purchase_credit`, whose `False` becomes HTTP 500.  The ambient
effects of the handler — the store, the generated uuid and the current
time — are explicit arguments; the result pairs the response with the
post-call store. -/
def purchase_credits (db : DBState) (request : TransactionRequest)
    (user : User) (newId now : String) (fault : DBFault) :
    Except HTTPError PurchaseResponse × DBState :=
  if ¬ BUYER_PERMISSIONS.contains user.user_type then
    (.error (.httpException 403 "Only buyers or admin can make purchases"), db)
  else
    match get_credit_by_id db request.credit_id with
    | .error e => (.error (.pythonError e), db)
    | .ok none => (.error (.httpException 404 "Credit not found"), db)
    | .ok (some credit) =>
      if credit.quantity_available < request.quantity then
        (.error (.httpException 400 "Insufficient quantity available"), db)
      else
        let transaction :=
          build_transaction request user newId now credit.price_per_ton
        match purchase_credit db transaction fault with
        | (true, db2) =>
          (.ok { transaction_id := newId
                 transaction_hash := transaction.transaction_hash
                 total_cost := (request.quantity : ℚ) * credit.price_per_ton
                 status := "completed" }, db2)
        | (false, _) =>
          (.error (.httpException 500 "Transaction failed"), db)

/-- The two response shapes of `GET /api/credits/{id}`. -/
inductive CreditView where
  | publicView (p : PublicCreditListing)
  | fullView (c : CarbonCredit)
  deriving DecidableEq, Repr

/-- The projection `PublicCreditListing(**credit.dict())` is meant to
compute: the public field subset of a credit. -/
def public_listing_of (c : CarbonCredit) : PublicCreditListing :=
  { id := c.id, project_name := c.project_name, supplier := c.supplier
    credit_type := c.credit_type, vintage := c.vintage
    quantity_available := c.quantity_available
    price_per_ton := c.price_per_ton, location := c.location
    verification_status := c.verification_status
    methodology := c.methodology }

/-- `main.get_credit_details` (`GET /api/credits/{credit_id}`), for an
authenticated `user`: lookup (uncaught `sqlite3` error → 500-level
`pythonError`), 404 when absent; then the role split.  In the `public`
branch the source runs `PublicCreditListing(**credit.dict())`, but
`credit` is the plain `dict` returned by `Database.get_credit_by_id` and
Python dicts have no `.dict()` method, so this line raises
`AttributeError` (surfaced as HTTP 500) instead of building
`public_listing_of credit`; the model reproduces that. -/
def get_credit_details (db : DBState) (credit_id : String) (user : User) :
    Except HTTPError CreditView :=
  match get_credit_by_id db credit_id with
  | .error e => .error (.pythonError e)
  | .ok none => .error (.httpException 404 "Credit not found")
  | .ok (some _credit) =>
    if user.user_type = "public" then
      .error (.pythonError "AttributeError: dict object has no attribute dict")
    else if user.user_type = "buyer" ∨ user.user_type = "admin" then
      .ok (.fullView _credit)
    else
      .error (.httpException 403 "Access forbidden")

/-- One entry of the anonymized `public`-role transaction listing: the
dict literal in `main.get_transactions` has exactly these four keys, so
the view carries no `buyer_id` and no transaction `id`. -/
structure PublicTransactionView where
  transaction_date : String
  credit_type : String
  quantity : Int
  price_per_ton : ℚ
  deriving DecidableEq, Repr

/-- The two response shapes of `GET /api/transactions`. -/
inductive TransactionsResponse where
  | fullList (ts : List CreditTransaction)
  | publicList (ts : List PublicTransactionView)
  deriving DecidableEq, Repr

/-- The Python dict comprehension `{c["id"]: c for c in credits}` followed
by `.get(credit_id, {})`: the last row with the key wins. -/
def credit_lookup_get (credits : List CarbonCredit) (credit_id : String) :
    Option CarbonCredit :=
  credits.foldl (fun acc c => if c.id == credit_id then some c else acc) none

/-- The anonymized entry built for one transaction in the `public` branch
of `main.get_transactions`: `credit_type` from the catalog join, with
`"Unknown"` when the credit is absent. -/
def anonymize_transaction (db : DBState) (t : CreditTransaction) :
    PublicTransactionView :=
  { transaction_date := t.transaction_date
    credit_type :=
      ((credit_lookup_get db.credits t.credit_id).map
        (fun c => c.credit_type)).getD "Unknown"
    quantity := t.quantity
    price_per_ton := t.price_per_ton }

/-- `main.get_transactions` (`GET /api/transactions`), for an
authenticated `user`: `admin` → all rows; `buyer` → rows filtered by the
caller's `user_id`; anything else (the `public` token) → every row
anonymized. -/
def get_transactions_route (db : DBState) (user : User) :
    TransactionsResponse :=
  if user.user_type = "admin" then
    .fullList (db_get_transactions db none)
  else if user.user_type = "buyer" then
    .fullList (db_get_transactions db (some user.user_id))
  else
    .publicList ((db_get_transactions db none).map (anonymize_transaction db))

/-- The combined effect the commit of `Database.purchase_credit`
publishes: the transaction row appended and `quantity_available` reduced
on every credit row whose `id` equals the transaction's `credit_id`. -/
def applyPurchase (db : DBState) (t : CreditTransaction) : DBState :=
  { credits := db.credits.map (fun c =>
      if c.id == t.credit_id then
        { c with quantity_available := c.quantity_available - t.quantity }
      else c)
    transactions := db.transactions ++ [t] }

/-! ## Test fixtures -/

/-- A representative catalog row. -/
def sampleCredit : CarbonCredit :=
  { id := "CC-001", project_name := "Forest Restoration"
    supplier := "EcoCorp", credit_type := "Reforestation", vintage := 2023
    quantity_available := 500, price_per_ton := 25, location := "Brazil"
    verification_status := "Verified", methodology := "VM0007"
    public_details := "{}", private_details := none }

/-- A store holding `sampleCredit` and an empty ledger. -/
def sampleDB : DBState := { credits := [sampleCredit], transactions := [] }

/-- The identity behind `demo_buyer_token`. -/
def buyerUser : User := ⟨"buyer", "buyer_001"⟩

/-- The identity behind `demo_admin_token`. -/
def adminUser : User := ⟨"admin", "admin_001"⟩

/-- The identity behind `demo_public_token`. -/
def publicUser : User := ⟨"public", "public_user"⟩

/-! ## Helper lemmas -/

/-- Appending the same string on the right is cancellable. -/
theorem string_append_right_cancel {a b c : String} (h : a ++ c = b ++ c) :
    a = b := by
  apply String.ext
  have hd := congrArg String.data h
  rw [String.data_append, String.data_append] at hd
  exact List.append_cancel_right hd

/-- Appending the same string on the left is cancellable. -/
theorem string_append_left_cancel {a b c : String} (h : a ++ b = a ++ c) :
    b = c := by
  apply String.ext
  have hd := congrArg String.data h
  rw [String.data_append, String.data_append] at hd
  exact List.append_cancel_left hd

/-- Scanning a quote-free literal body consumes exactly the body. -/
theorem scanLiteral_append_quote (l : List Char) (h : sqlQuote ∉ l) :
    scanLiteral (l ++ [sqlQuote]) = some (l, []) := by
  induction l with
  | nil => simp [scanLiteral]
  | cons c cs ih =>
    have hc : ¬ c = sqlQuote := fun e => h (e ▸ List.mem_cons_self c cs)
    have hcs : sqlQuote ∉ cs := fun m => h (List.mem_cons_of_mem c m)
    rw [List.cons_append]
    unfold scanLiteral
    rw [if_neg hc, ih hcs]
    rfl

/-- For an id without a single quote, the interpolated lookup query is
the intended exact-match query on that id. -/
theorem get_credit_by_id_no_quote (db : DBState) (id : String)
    (h : sqlQuote ∉ id.data) :
    get_credit_by_id db id = .ok (db.credits.find? (fun c => c.id == id)) := by
  have hmk : String.mk id.data = id := by cases id; rfl
  unfold get_credit_by_id
  rw [scanLiteral_append_quote id.data h]
  simp [hmk]

/-- With duplicate-free ids (the `carbon_credits` PRIMARY KEY), the
first row found for a member's id is that member. -/
theorem find_credit_of_nodup {l : List CarbonCredit} {c : CarbonCredit}
    (hnd : (l.map (fun x => x.id)).Nodup) (hmem : c ∈ l) :
    l.find? (fun x => x.id == c.id) = some c := by
  induction l with
  | nil => cases hmem
  | cons a tl ih =>
    have hnd' := List.nodup_cons.mp hnd
    rcases List.mem_cons.mp hmem with rfl | hmem'
    · simp [List.find?]
    · have hne : (a.id == c.id) = false := by
        rw [beq_eq_false_iff_ne]
        intro e
        have hin : c.id ∈ tl.map (fun x => x.id) :=
          List.mem_map_of_mem (fun x => x.id) hmem'
        rw [← e] at hin
        exact hnd'.1 hin
      simp only [List.find?, hne]
      exact ih hnd'.2 hmem'

/-- `Database.purchase_credit` either commits both statements or rolls
back to the pre-call store. -/
theorem purchase_credit_cases (db : DBState) (t : CreditTransaction)
    (fault : DBFault) :
    purchase_credit db t fault = (true, applyPurchase db t) ∨
    purchase_credit db t fault = (false, db) := by
  cases hf : fault.insertFault with
  | true =>
    right; simp [purchase_credit, insertTransaction, hf]
  | false =>
    cases ha : db.transactions.any (fun u => u.id == t.id) with
    | true =>
      right; simp [purchase_credit, insertTransaction, hf, ha]
    | false =>
      cases hu : fault.updateFault with
      | true =>
        right
        simp [purchase_credit, insertTransaction, updateCreditQuantity, hf,
          ha, hu]
      | false =>
        left
        simp [purchase_credit, insertTransaction, updateCreditQuantity,
          applyPurchase, hf, ha, hu]

/-- A fault-free purchase with a fresh transaction id commits. -/
theorem purchase_credit_nofault (db : DBState) (t : CreditTransaction)
    (hfresh : db.transactions.any (fun u => u.id == t.id) = false) :
    purchase_credit db t ⟨false, false⟩ = (true, applyPurchase db t) := by
  unfold purchase_credit insertTransaction updateCreditQuantity applyPurchase
  simp [hfresh]

/-- The success path of `POST /api/purchase`: permitted role, credit
found, enough inventory, fresh id, no storage fault. -/
theorem purchase_route_success_eq (db : DBState) (request : TransactionRequest)
    (user : User) (newId now : String) (c : CarbonCredit)
    (hrole : BUYER_PERMISSIONS.contains user.user_type = true)
    (hfind : get_credit_by_id db request.credit_id = .ok (some c))
    (hqty : ¬ c.quantity_available < request.quantity)
    (hfresh : db.transactions.any (fun u => u.id == newId) = false) :
    purchase_credits db request user newId now ⟨false, false⟩ =
      (.ok { transaction_id := newId
             transaction_hash :=
               (build_transaction request user newId now
                 c.price_per_ton).transaction_hash
             total_cost := (request.quantity : ℚ) * c.price_per_ton
             status := "completed" },
       applyPurchase db (build_transaction request user newId now
         c.price_per_ton)) := by
  have hid : (build_transaction request user newId now c.price_per_ton).id
      = newId := rfl
  unfold purchase_credits
  rw [hfind]
  simp only [hrole, not_true, if_neg, if_false]
  rw [if_neg hqty]
  rw [purchase_credit_nofault db _ (by rw [hid]; exact hfresh)]

/-! ## Claims -/

/-- Claim C1: for every call to the purchase operation the
transaction-record insert and the availability decrement take effect
together or not at all.  First conjunct: `Database.purchase_credit`
either commits exactly insert-plus-decrement or returns `False` with the
store unchanged.  Second conjunct: every `POST /api/purchase` call
either succeeds with exactly those two effects applied or signals an
error with both tables unchanged from before the call.  Third conjunct:
when the request passes role, lookup and quantity validation but the
atomic step fails, the route signals HTTP 500 (`TransactionFailed`) and
the store is unchanged. -/
theorem purchase_atomicity (db : DBState) (request : TransactionRequest)
    (user : User) (newId now : String) (fault : DBFault) :
    (∀ t : CreditTransaction,
        purchase_credit db t fault = (true, applyPurchase db t) ∨
        purchase_credit db t fault = (false, db)) ∧
    ((∃ resp c, (purchase_credits db request user newId now fault).1 = .ok resp ∧
        get_credit_by_id db request.credit_id = .ok (some c) ∧
        (purchase_credits db request user newId now fault).2 =
          applyPurchase db
            (build_transaction request user newId now c.price_per_ton)) ∨
     (∃ e, purchase_credits db request user newId now fault = (.error e, db))) ∧
    (∀ c : CarbonCredit,
        BUYER_PERMISSIONS.contains user.user_type = true →
        get_credit_by_id db request.credit_id = .ok (some c) →
        ¬ c.quantity_available < request.quantity →
        (purchase_credit db
          (build_transaction request user newId now c.price_per_ton) fault).1
          = false →
        purchase_credits db request user newId now fault =
          (.error (.httpException 500 "Transaction failed"), db)) := by
  refine ⟨fun t => purchase_credit_cases db t fault, ?_, ?_⟩
  · by_cases hrole : BUYER_PERMISSIONS.contains user.user_type = true
    · have hmem : user.user_type ∈ BUYER_PERMISSIONS := by simpa using hrole
      cases hlook : get_credit_by_id db request.credit_id with
      | error e =>
        right
        exact ⟨.pythonError e, by simp [purchase_credits, hmem, hlook]⟩
      | ok o =>
        cases o with
        | none =>
          right
          refine ⟨.httpException 404 "Credit not found", ?_⟩
          simp [purchase_credits, hmem, hlook]
        | some c =>
          by_cases hqty : c.quantity_available < request.quantity
          · right
            refine ⟨.httpException 400 "Insufficient quantity available", ?_⟩
            simp [purchase_credits, hmem, hlook, hqty]
          · rcases purchase_credit_cases db
              (build_transaction request user newId now c.price_per_ton) fault
              with hpc | hpc
            · left
              refine ⟨{ transaction_id := newId
                        transaction_hash :=
                          (build_transaction request user newId now
                            c.price_per_ton).transaction_hash
                        total_cost := (request.quantity : ℚ) * c.price_per_ton
                        status := "completed" }, c, ?_, rfl, ?_⟩ <;>
                simp [purchase_credits, hmem, hlook, hqty, hpc]
            · right
              refine ⟨.httpException 500 "Transaction failed", ?_⟩
              simp [purchase_credits, hmem, hlook, hqty, hpc]
    · right
      refine ⟨.httpException 403 "Only buyers or admin can make purchases", ?_⟩
      have hmem : ¬ user.user_type ∈ BUYER_PERMISSIONS := by simpa using hrole
      simp [purchase_credits, hmem]
  · intro c hrole hlook hqty hfail
    have hmem : user.user_type ∈ BUYER_PERMISSIONS := by simpa using hrole
    rcases purchase_credit_cases db
        (build_transaction request user newId now c.price_per_ton) fault
      with hpc | hpc
    · rw [hpc] at hfail; cases hfail
    · simp [purchase_credits, hmem, hlook, hqty, hpc]

/-- Witness for C1, third conjunct: an insert-statement fault on an
otherwise valid buyer purchase yields HTTP 500 with the store unchanged. -/
theorem purchase_atomicity_witness :
    purchase_credits sampleDB ⟨"CC-001", 10⟩ buyerUser "tx-001"
        "2024-01-01T00:00:00" ⟨true, false⟩ =
      (.error (.httpException 500 "Transaction failed"), sampleDB) :=
  (purchase_atomicity sampleDB ⟨"CC-001", 10⟩ buyerUser "tx-001"
      "2024-01-01T00:00:00" ⟨true, false⟩).2.2 sampleCredit
    (by rfl) (by rfl) (by decide) (by rfl)

/-- A catalog row whose id contains a single-quote character. -/
def quotedCredit : CarbonCredit := { sampleCredit with id := "CC" ++ quoteS ++ "7" }

/-- A store holding `quotedCredit` and an empty ledger. -/
def quotedDB : DBState := { credits := [quotedCredit], transactions := [] }

/-- Counterexample to claim C2 as stated: `quotedCredit` is in the store
and a buyer requests quantity 1 of 500 available, yet the purchase does
not succeed — interpolating the id into the lookup SQL leaves a
malformed statement, the `sqlite3` error escapes the handler (HTTP 500),
and no 200 response is produced. -/
theorem purchase_success_counterexample :
    (1 : Int) ≤ quotedCredit.quantity_available ∧
    (purchase_credits quotedDB ⟨quotedCredit.id, 1⟩ buyerUser "tx-002"
        "2024-01-01T00:00:00" ⟨false, false⟩).1 =
      .error (.pythonError "sqlite3.OperationalError: near token: syntax error") :=
  ⟨by decide, by rfl⟩

/-- Claim C2 (amended to credits whose id contains no single-quote
character, under unique row ids, a fresh transaction id and no storage
fault): a buyer-or-admin purchase of quantity ≤ availability succeeds
with HTTP 200, body `total_cost = quantity * price_per_ton`, exactly one
transaction appended with the request's quantity and the credit's
current price, the credit decremented by exactly the quantity, and no
other credit row modified. -/
theorem purchase_success (db : DBState) (request : TransactionRequest)
    (user : User) (newId now : String) (c : CarbonCredit)
    (hrole : user.user_type ∈ BUYER_PERMISSIONS)
    (hmem : c ∈ db.credits)
    (hid : request.credit_id = c.id)
    (hquote : sqlQuote ∉ c.id.data)
    (hnd : (db.credits.map (fun x => x.id)).Nodup)
    (hqty : request.quantity ≤ c.quantity_available)
    (hfresh : db.transactions.any (fun u => u.id == newId) = false) :
    purchase_credits db request user newId now ⟨false, false⟩ =
      (.ok { transaction_id := newId
             transaction_hash :=
               (build_transaction request user newId now
                 c.price_per_ton).transaction_hash
             total_cost := (request.quantity : ℚ) * c.price_per_ton
             status := "completed" },
       applyPurchase db
         (build_transaction request user newId now c.price_per_ton)) ∧
    (build_transaction request user newId now c.price_per_ton).quantity
      = request.quantity ∧
    (build_transaction request user newId now c.price_per_ton).price_per_ton
      = c.price_per_ton ∧
    (applyPurchase db
        (build_transaction request user newId now c.price_per_ton)).transactions
      = db.transactions ++
        [build_transaction request user newId now c.price_per_ton] ∧
    { c with quantity_available := c.quantity_available - request.quantity }
      ∈ (applyPurchase db
          (build_transaction request user newId now c.price_per_ton)).credits ∧
    ∀ c2 ∈ db.credits, c2.id ≠ c.id →
      c2 ∈ (applyPurchase db
        (build_transaction request user newId now c.price_per_ton)).credits := by
  have hfind : get_credit_by_id db request.credit_id = .ok (some c) := by
    rw [hid, get_credit_by_id_no_quote db c.id hquote,
      find_credit_of_nodup hnd hmem]
  refine ⟨purchase_route_success_eq db request user newId now c
      (by simpa using hrole) hfind (not_lt.mpr hqty) hfresh, rfl, rfl, rfl,
    ?_, ?_⟩
  · have : ({ c with quantity_available :=
        c.quantity_available - request.quantity } : CarbonCredit) =
      (fun x : CarbonCredit =>
        if x.id == (build_transaction request user newId now
            c.price_per_ton).credit_id then
          { x with quantity_available := x.quantity_available -
              (build_transaction request user newId now
                c.price_per_ton).quantity }
        else x) c := by
      simp [build_transaction, hid]
    rw [this]
    exact List.mem_map_of_mem _ hmem
  · intro c2 hc2 hne
    have : c2 = (fun x : CarbonCredit =>
        if x.id == (build_transaction request user newId now
            c.price_per_ton).credit_id then
          { x with quantity_available := x.quantity_available -
              (build_transaction request user newId now
                c.price_per_ton).quantity }
        else x) c2 := by
      simp [build_transaction, hid, hne]
    rw [this]
    exact List.mem_map_of_mem _ hc2

/-- Witness for C2: the sample buyer purchase of 10 of 500 succeeds with
the 200 body and the committed insert-plus-decrement store. -/
theorem purchase_success_witness :
    purchase_credits sampleDB ⟨"CC-001", 10⟩ buyerUser "tx-003"
        "2024-01-01T00:00:00" ⟨false, false⟩ =
      (.ok { transaction_id := "tx-003"
             transaction_hash :=
               (build_transaction ⟨"CC-001", 10⟩ buyerUser "tx-003"
                 "2024-01-01T00:00:00"
                 sampleCredit.price_per_ton).transaction_hash
             total_cost := ((10 : Int) : ℚ) * sampleCredit.price_per_ton
             status := "completed" },
       applyPurchase sampleDB
         (build_transaction ⟨"CC-001", 10⟩ buyerUser "tx-003"
           "2024-01-01T00:00:00" sampleCredit.price_per_ton)) :=
  (purchase_success sampleDB ⟨"CC-001", 10⟩ buyerUser "tx-003"
      "2024-01-01T00:00:00" sampleCredit (by decide) (by decide) rfl
      (by decide) (by decide) (by decide) rfl).1

/-- Counterexample to claim C3 as stated: a buyer requests 600 of the
500 available units of `quotedCredit`, but the failure is not
`InsufficientInventory`/HTTP 400 — the interpolated lookup SQL is
malformed, so the `sqlite3` error escapes the handler as HTTP 500. -/
theorem insufficient_inventory_counterexample :
    quotedCredit.quantity_available < 600 ∧
    (purchase_credits quotedDB ⟨quotedCredit.id, 600⟩ buyerUser "tx-004"
        "2024-01-01T00:00:00" ⟨false, false⟩).1 =
      .error (.pythonError
        "sqlite3.OperationalError: near token: syntax error") ∧
    HTTPError.pythonError "sqlite3.OperationalError: near token: syntax error"
      ≠ HTTPError.httpException 400 "Insufficient quantity available" :=
  ⟨by decide, by rfl, by decide⟩

/-- Claim C3 (amended to buyer-or-admin requests on credits whose id
contains no single-quote character, under unique row ids): a purchase
request with quantity above the availability fails with HTTP 400
(`InsufficientInventory`) and leaves the store — listing and ledger —
completely unchanged, whatever the storage fault oracle says. -/
theorem insufficient_inventory_rejected (db : DBState)
    (request : TransactionRequest) (user : User) (newId now : String)
    (fault : DBFault) (c : CarbonCredit)
    (hrole : user.user_type ∈ BUYER_PERMISSIONS)
    (hmem : c ∈ db.credits)
    (hid : request.credit_id = c.id)
    (hquote : sqlQuote ∉ c.id.data)
    (hnd : (db.credits.map (fun x => x.id)).Nodup)
    (hqty : c.quantity_available < request.quantity) :
    purchase_credits db request user newId now fault =
      (.error (.httpException 400 "Insufficient quantity available"), db) := by
  have hfind : get_credit_by_id db request.credit_id = .ok (some c) := by
    rw [hid, get_credit_by_id_no_quote db c.id hquote,
      find_credit_of_nodup hnd hmem]
  simp [purchase_credits, hrole, hfind, hqty]

/-- Witness for C3: requesting 501 of the 500 available sample units is
rejected with HTTP 400 and an unchanged store. -/
theorem insufficient_inventory_rejected_witness :
    purchase_credits sampleDB ⟨"CC-001", 501⟩ buyerUser "tx-005"
        "2024-01-01T00:00:00" ⟨false, false⟩ =
      (.error (.httpException 400 "Insufficient quantity available"),
       sampleDB) :=
  insufficient_inventory_rejected sampleDB ⟨"CC-001", 501⟩ buyerUser "tx-005"
    "2024-01-01T00:00:00" ⟨false, false⟩ sampleCredit (by decide) (by decide)
    rfl (by decide) (by decide) (by decide)

/-- Claim C4: on every purchase the route records, the stored
`transaction_hash` is the lowercase SHA-256 hex digest of the UTF-8
bytes of credit_id ++ buyer_id ++ decimal-quantity ++ transaction_date,
all four taken from the recorded transaction itself (in particular the
hashed date is the exact ISO string stored on the record). -/
theorem recorded_hash_derivation (db : DBState) (request : TransactionRequest)
    (user : User) (newId now : String) (c : CarbonCredit)
    (hrole : user.user_type ∈ BUYER_PERMISSIONS)
    (hfind : get_credit_by_id db request.credit_id = .ok (some c))
    (hqty : ¬ c.quantity_available < request.quantity)
    (hfresh : db.transactions.any (fun u => u.id == newId) = false) :
    ∃ t : CreditTransaction,
      (purchase_credits db request user newId now
          ⟨false, false⟩).2.transactions = db.transactions ++ [t] ∧
      t.transaction_hash = sha256hex (utf8Encode
        (t.credit_id ++ t.buyer_id ++ toString t.quantity ++
          t.transaction_date)) := by
  refine ⟨build_transaction request user newId now c.price_per_ton, ?_, rfl⟩
  rw [purchase_route_success_eq db request user newId now c
    (by simpa using hrole) hfind hqty hfresh]
  rfl

/-- Witness for C4: the sample purchase appends one transaction whose
stored hash is the digest of its own four recorded fields. -/
theorem recorded_hash_derivation_witness :
    ∃ t : CreditTransaction,
      (purchase_credits sampleDB ⟨"CC-001", 10⟩ buyerUser "tx-006"
          "2024-01-01T00:00:00" ⟨false, false⟩).2.transactions =
        sampleDB.transactions ++ [t] ∧
      t.transaction_hash = sha256hex (utf8Encode
        (t.credit_id ++ t.buyer_id ++ toString t.quantity ++
          t.transaction_date)) :=
  recorded_hash_derivation sampleDB ⟨"CC-001", 10⟩ buyerUser "tx-006"
    "2024-01-01T00:00:00" sampleCredit (by decide) (by rfl) (by decide) rfl

/-- Counterexample to claim C5 as stated: with `quantity = 5` the code
hashes the string C1B152024-01-01T00:00:00, not the spec's literal
C1B150002024-01-01T00:00:00 (which corresponds to `quantity = 5000`),
and the two digests differ. -/
theorem digest_literal_counterexample :
    create_transaction_hash "C1" "B1" 5 "2024-01-01T00:00:00" ≠
      sha256hex (utf8Encode "C1B150002024-01-01T00:00:00") := by
  decide

/-- Claim C5 (amended: the fixed inputs produce the claimed literal when
`quantity = 5000`, matching the literal's digit run, rather than
`quantity = 5`): the digest equals the SHA-256 hex of the literal string
C1B150002024-01-01T00:00:00; recomputation on identical inputs is
identical; changing any single field (the other three fixed) changes the
hashed input string — for quantity, any value whose decimal form differs
— and spot-checked single-field variants change the digest itself. -/
theorem digest_demo_vector :
    create_transaction_hash "C1" "B1" 5000 "2024-01-01T00:00:00" =
      sha256hex (utf8Encode "C1B150002024-01-01T00:00:00") ∧
    create_transaction_hash "C1" "B1" 5000 "2024-01-01T00:00:00" =
      create_transaction_hash "C1" "B1" 5000 "2024-01-01T00:00:00" ∧
    (∀ cid : String, cid ≠ "C1" →
      digest_input cid "B1" 5000 "2024-01-01T00:00:00" ≠
        digest_input "C1" "B1" 5000 "2024-01-01T00:00:00") ∧
    (∀ bid : String, bid ≠ "B1" →
      digest_input "C1" bid 5000 "2024-01-01T00:00:00" ≠
        digest_input "C1" "B1" 5000 "2024-01-01T00:00:00") ∧
    (∀ q : Int, toString q ≠ toString (5000 : Int) →
      digest_input "C1" "B1" q "2024-01-01T00:00:00" ≠
        digest_input "C1" "B1" 5000 "2024-01-01T00:00:00") ∧
    (∀ d : String, d ≠ "2024-01-01T00:00:00" →
      digest_input "C1" "B1" 5000 d ≠
        digest_input "C1" "B1" 5000 "2024-01-01T00:00:00") ∧
    create_transaction_hash "C2" "B1" 5000 "2024-01-01T00:00:00" ≠
      create_transaction_hash "C1" "B1" 5000 "2024-01-01T00:00:00" ∧
    create_transaction_hash "C1" "B2" 5000 "2024-01-01T00:00:00" ≠
      create_transaction_hash "C1" "B1" 5000 "2024-01-01T00:00:00" ∧
    create_transaction_hash "C1" "B1" 5001 "2024-01-01T00:00:00" ≠
      create_transaction_hash "C1" "B1" 5000 "2024-01-01T00:00:00" ∧
    create_transaction_hash "C1" "B1" 5000 "2024-01-02T00:00:00" ≠
      create_transaction_hash "C1" "B1" 5000 "2024-01-01T00:00:00" := by
  refine ⟨by decide, rfl, ?_, ?_, ?_, ?_, by decide, by decide, by decide,
    by decide⟩
  · intro cid hne he
    exact hne (string_append_right_cancel (string_append_right_cancel
      (string_append_right_cancel he)))
  · intro bid hne he
    exact hne (string_append_left_cancel (string_append_right_cancel
      (string_append_right_cancel he)))
  · intro q hne he
    exact hne (string_append_left_cancel (string_append_right_cancel he))
  · intro d hne he
    exact hne (string_append_left_cancel he)

/-- Claim C6 (code bug in the `public` branch): looking up a present
credit with a buyer or admin credential returns the full record, and an
absent credit is a 404; but a `public`-role caller on a present credit
does not receive the public view — the source line
`PublicCreditListing(**credit.dict())` calls `.dict()` on the plain
Python dict `Database.get_credit_by_id` returned, raising
`AttributeError` (HTTP 500). -/
theorem credit_details_public_branch_raises :
    get_credit_details sampleDB "CC-001" publicUser =
      .error (.pythonError
        "AttributeError: dict object has no attribute dict") ∧
    get_credit_details sampleDB "CC-001" buyerUser =
      .ok (.fullView sampleCredit) ∧
    get_credit_details sampleDB "CC-001" adminUser =
      .ok (.fullView sampleCredit) ∧
    get_credit_details sampleDB "CC-404" buyerUser =
      .error (.httpException 404 "Credit not found") :=
  ⟨rfl, rfl, rfl, rfl⟩

/-- Counterexample to claim C7 as stated: an id consisting of one single
quote leaves the interpolated query with an unterminated literal, so the
lookup raises a `sqlite3` error instead of returning an absent result,
and the route surfaces HTTP 500, not 404. -/
theorem getById_quote_raises :
    get_credit_by_id sampleDB quoteS =
      .error "sqlite3.OperationalError: unrecognized token" ∧
    get_credit_details sampleDB quoteS buyerUser =
      .error (.pythonError "sqlite3.OperationalError: unrecognized token") :=
  ⟨rfl, rfl⟩

/-- Claim C7 (amended to ids containing no single-quote character, for
which the interpolated query stays a well-formed exact-match lookup):
`Database.get_credit_by_id` on an id absent from the store returns an
absent result without raising, and `GET /api/credits/{id}` turns that
into HTTP 404 for every caller. -/
theorem getById_absent_no_error (db : DBState) (id : String)
    (hquote : sqlQuote ∉ id.data)
    (habs : ∀ c ∈ db.credits, c.id ≠ id) :
    get_credit_by_id db id = .ok none ∧
    ∀ user : User, get_credit_details db id user =
      .error (.httpException 404 "Credit not found") := by
  have hfind : db.credits.find? (fun c => c.id == id) = none := by
    rw [List.find?_eq_none]
    intro c hc
    simpa using habs c hc
  have h1 : get_credit_by_id db id = .ok none := by
    rw [get_credit_by_id_no_quote db id hquote, hfind]
  exact ⟨h1, fun user => by simp [get_credit_details, h1]⟩

/-- Witness for C7: the unknown id CC-999 is absent without an error and
404s on the route. -/
theorem getById_absent_no_error_witness :
    get_credit_by_id sampleDB "CC-999" = .ok none ∧
    get_credit_details sampleDB "CC-999" publicUser =
      .error (.httpException 404 "Credit not found") :=
  ⟨(getById_absent_no_error sampleDB "CC-999" (by decide) (by decide)).1,
   (getById_absent_no_error sampleDB "CC-999" (by decide) (by decide)).2
     publicUser⟩

/-- Claim C8: for every recognized caller of `GET /api/transactions`,
an admin receives every transaction verbatim, a buyer receives exactly
the transactions whose `buyer_id` equals the caller's subject id, and a
public caller receives one `PublicTransactionView` per transaction — a
record type carrying only `transaction_date`, `credit_type`, `quantity`
and `price_per_ton`, hence never a `buyer_id` or transaction `id`. -/
theorem transactions_role_scoping (db : DBState) (token : String)
    (user : User) (hauth : verify_token token = .ok user) :
    (user.user_type = "admin" →
      get_transactions_route db user = .fullList db.transactions) ∧
    (user.user_type = "buyer" →
      get_transactions_route db user =
        .fullList (db.transactions.filter
          (fun t => t.buyer_id == user.user_id))) ∧
    (user.user_type = "public" →
      get_transactions_route db user =
        .publicList (db.transactions.map (anonymize_transaction db))) := by
  have husers : user = publicUser ∨ user = buyerUser ∨ user = adminUser := by
    unfold verify_token at hauth
    split at hauth
    · exact Or.inl (Except.ok.inj hauth).symm
    · split at hauth
      · exact Or.inr (Or.inl (Except.ok.inj hauth).symm)
      · split at hauth
        · exact Or.inr (Or.inr (Except.ok.inj hauth).symm)
        · cases hauth
  refine ⟨?_, ?_, ?_⟩ <;> intro ht <;> rcases husers with rfl | rfl | rfl <;>
    first
      | rfl
      | exact absurd ht (by decide)

/-- A recorded purchase by `buyer_001`. -/
def ledgerTxn : CreditTransaction :=
  { id := "tx-100", credit_id := "CC-001", buyer_id := "buyer_001"
    quantity := 5, price_per_ton := 25
    transaction_date := "2024-01-01T00:00:00", status := "completed"
    transaction_hash := "feedc0de" }

/-- A recorded purchase by a different buyer. -/
def ledgerTxn2 : CreditTransaction :=
  { ledgerTxn with id := "tx-101", buyer_id := "buyer_002" }

/-- A store with two recorded transactions by different buyers. -/
def ledgerDB : DBState :=
  { credits := [sampleCredit], transactions := [ledgerTxn, ledgerTxn2] }

/-- Witness for C8: the three demo identities against the two-entry
ledger. -/
theorem transactions_role_scoping_witness :
    get_transactions_route ledgerDB adminUser =
      .fullList ledgerDB.transactions ∧
    get_transactions_route ledgerDB buyerUser =
      .fullList (ledgerDB.transactions.filter
        (fun t => t.buyer_id == buyerUser.user_id)) ∧
    get_transactions_route ledgerDB publicUser =
      .publicList (ledgerDB.transactions.map
        (anonymize_transaction ledgerDB)) :=
  ⟨(transactions_role_scoping ledgerDB "demo_admin_token" adminUser rfl).1
     rfl,
   (transactions_role_scoping ledgerDB "demo_buyer_token" buyerUser
     rfl).2.1 rfl,
   (transactions_role_scoping ledgerDB "demo_public_token" publicUser
     rfl).2.2 rfl⟩

/-- A catalog row whose id is the string a-quote-b, the string the
interpolated lookup of `injCreditVictim.id` actually resolves. -/
def injCreditTarget : CarbonCredit :=
  { sampleCredit with id := "a" ++ quoteS ++ "b", quantity_available := 100 }

/-- A catalog row whose id is a-quote-quote-b: looked up through the
interpolated SQL, the doubled quote reads as one escaped quote, so the
validation runs against `injCreditTarget` while the parameterized UPDATE
hits this row. -/
def injCreditVictim : CarbonCredit :=
  { sampleCredit with
    id := "a" ++ quoteS ++ quoteS ++ "b"
    quantity_available := 1 }

/-- A store holding both quote-bearing rows and an empty ledger. -/
def injDB : DBState :=
  { credits := [injCreditTarget, injCreditVictim], transactions := [] }

/-- Counterexample to claim C9 as stated: from a store where every
availability is non-negative, one buyer purchase drives a row negative —
the lookup validates the 100 available units of `injCreditTarget`
(SQLite reads the doubled quote in the interpolated id as an escape),
but the decrement's parameterized WHERE matches `injCreditVictim`, whose
single unit goes to 1 - 50 = -49. -/
theorem availability_invariant_counterexample :
    (∀ c ∈ injDB.credits, 0 ≤ c.quantity_available) ∧
    ((purchase_credits injDB ⟨"a" ++ quoteS ++ quoteS ++ "b", 50⟩ buyerUser
        "tx-200" "2024-01-01T00:00:00" ⟨false, false⟩).2.credits.any
      (fun c => c.quantity_available < 0)) = true :=
  ⟨by decide, by decide⟩

/-- Claim C9 (amended to requests whose credit_id contains no
single-quote character, under unique row ids — for those the validated
row and the decremented row coincide): non-negativity of every
`quantity_available` is preserved by `POST /api/purchase`, and any
failing call leaves the store unchanged — so availability changes only
on successful purchases (every other endpoint is read-only on the
store). -/
theorem availability_invariant_preserved (db : DBState)
    (request : TransactionRequest) (user : User) (newId now : String)
    (fault : DBFault)
    (hquote : sqlQuote ∉ request.credit_id.data)
    (hnd : (db.credits.map (fun x => x.id)).Nodup)
    (hinv : ∀ c ∈ db.credits, 0 ≤ c.quantity_available) :
    (∀ c ∈ (purchase_credits db request user newId now fault).2.credits,
      0 ≤ c.quantity_available) ∧
    (∀ e, (purchase_credits db request user newId now fault).1 = .error e →
      (purchase_credits db request user newId now fault).2 = db) := by
  have hlook := get_credit_by_id_no_quote db request.credit_id hquote
  by_cases hrole : user.user_type ∈ BUYER_PERMISSIONS
  · cases hfind : db.credits.find? (fun x => x.id == request.credit_id) with
    | none =>
      rw [hfind] at hlook
      have h2 : (purchase_credits db request user newId now fault).2 = db :=
        by simp [purchase_credits, hrole, hlook]
      exact ⟨fun c hc => hinv c (h2 ▸ hc), fun e _ => h2⟩
    | some c0 =>
      rw [hfind] at hlook
      have hc0mem : c0 ∈ db.credits := List.mem_of_find?_eq_some hfind
      have hc0id : c0.id = request.credit_id := by
        have := List.find?_some hfind
        simpa using this
      by_cases hqty : c0.quantity_available < request.quantity
      · have h2 : (purchase_credits db request user newId now fault).2 = db :=
          by simp [purchase_credits, hrole, hlook, hqty]
        exact ⟨fun c hc => hinv c (h2 ▸ hc), fun e _ => h2⟩
      · rcases purchase_credit_cases db
            (build_transaction request user newId now c0.price_per_ton) fault
          with hpc | hpc
        · have h2 : (purchase_credits db request user newId now fault).2 =
              applyPurchase db
                (build_transaction request user newId now c0.price_per_ton) :=
            by simp [purchase_credits, hrole, hlook, hqty, hpc]
          have h1 : ∀ e,
              (purchase_credits db request user newId now fault).1 ≠
                .error e := by
            intro e
            simp [purchase_credits, hrole, hlook, hqty, hpc]
          refine ⟨?_, fun e he => absurd he (h1 e)⟩
          intro c hc
          rw [h2] at hc
          rcases List.mem_map.mp hc with ⟨x, hx, rfl⟩
          by_cases hxid : (x.id ==
              (build_transaction request user newId now
                c0.price_per_ton).credit_id) = true
          · have hxc0 : x = c0 := by
              apply List.inj_on_of_nodup_map hnd hx hc0mem
              have : x.id = request.credit_id := by simpa using hxid
              simp [this, hc0id]
            subst hxc0
            simp only [applyPurchase, hxid, if_pos]
            have : request.quantity ≤ x.quantity_available := not_lt.mp hqty
            simp [build_transaction]
            omega
          · simp only [applyPurchase, hxid]
            simpa using hinv x hx
        · have h2 : (purchase_credits db request user newId now fault).2 = db
            := by simp [purchase_credits, hrole, hlook, hqty, hpc]
          exact ⟨fun c hc => hinv c (h2 ▸ hc), fun e _ => h2⟩
  · have h2 : (purchase_credits db request user newId now fault).2 = db := by
      simp [purchase_credits, hrole]
    exact ⟨fun c hc => hinv c (h2 ▸ hc), fun e _ => h2⟩

/-- Witness for C9: the failing sample purchase (insert fault) leaves
the store unchanged. -/
theorem availability_invariant_preserved_witness :
    (purchase_credits sampleDB ⟨"CC-001", 10⟩ buyerUser "tx-201"
        "2024-01-01T00:00:00" ⟨true, false⟩).2 = sampleDB :=
  (availability_invariant_preserved sampleDB ⟨"CC-001", 10⟩ buyerUser
      "tx-201" "2024-01-01T00:00:00" ⟨true, false⟩ (by decide) (by decide)
      (by decide)).2 (.httpException 500 "Transaction failed") (by rfl)

/-- Claim C10: `Database.get_transactions` with the empty string as
`buyer_id` returns every transaction — Python `if buyer_id:` treats the
empty string as falsy, i.e. as no filter — and the buyer filter applies
only to non-empty `buyer_id` values. -/
theorem get_transactions_empty_buyer_no_filter (db : DBState) :
    db_get_transactions db (some "") = db.transactions ∧
    db_get_transactions db none = db.transactions ∧
    ∀ b : String, b ≠ "" →
      db_get_transactions db (some b) =
        db.transactions.filter (fun t => t.buyer_id == b) := by
  refine ⟨rfl, rfl, ?_⟩
  intro b hb
  simp [db_get_transactions, hb]

/-- Witness for C10: over the two-buyer ledger, the empty-string call
returns both rows while a non-empty buyer id filters. -/
theorem get_transactions_empty_buyer_no_filter_witness :
    db_get_transactions ledgerDB (some "") = ledgerDB.transactions ∧
    db_get_transactions ledgerDB (some "buyer_001") =
      ledgerDB.transactions.filter (fun t => t.buyer_id == "buyer_001") :=
  ⟨(get_transactions_empty_buyer_no_filter ledgerDB).1,
   (get_transactions_empty_buyer_no_filter ledgerDB).2.2 "buyer_001"
     (by decide)⟩

end Marketplace
